import Mathlib

/-!
Verification development for the tiktokscraping repository
(src/scripts/common/base_scraper.py, src/scripts/common/models.py,
src/scripts/tiktok/scraper.py, src/scripts/facebook/scraper.py).

The browser-automation surface (Playwright) is the external boundary: DOM
queries, clicks and waits are modelled as inputs (observation sequences,
lists of already-queried element data, per-stage outcomes), and the pure
decision logic of the scrapers is translated directly from the source.
Strings are Lean strings; lowercasing is the ASCII lowering of
String.toLower (the Python and JS sources lowercase full Unicode, which
only differs on non-ASCII letters and is irrelevant to the claims);
character counts use Lean Char counts (the JS substring counts UTF-16
units, which agree on the inputs used here).
-/

/-! ## Generic string helpers used by the embedded code -/

/-- ASCII lowering of one character (the fragment of `str.lower()` and of
the JS and regex case folding that the claims exercise). -/
def lowerChar (c : Char) : Char :=
  if c.toNat ≥ 65 ∧ c.toNat ≤ 90 then Char.ofNat (c.toNat + 32) else c

/-- Python `s.lower()` restricted to ASCII letters. -/
def lowerStr (s : String) : String :=
  String.mk (s.toList.map lowerChar)

/-- Leading and trailing whitespace removed (Python `str.strip()`,
JS `String.prototype.trim`). -/
def trimChars (cs : List Char) : List Char :=
  ((cs.dropWhile Char.isWhitespace).reverse.dropWhile Char.isWhitespace).reverse

/-- `strip` on strings. -/
def trimStr (s : String) : String :=
  String.mk (trimChars s.toList)

/-- Decides whether `needle` occurs as a contiguous subsequence of `hay`
(the Python `needle in hay` test on strings). -/
def containsSeq (needle : List Char) : List Char → Bool
  | [] => needle.isEmpty
  | c :: t => needle.isPrefixOf (c :: t) || containsSeq needle t

/-- Python `sub in s` on strings. -/
def containsStr (s sub : String) : Bool :=
  containsSeq sub.toList s.toList

/-- Replaces every maximal run of whitespace by a single space, as the
regex replacement of a whitespace run by one space does in
`re.sub(r'\s+', ' ', text)` and the JS `text.replace(/\s+/g, ' ')`.
The flag records whether the previous character was whitespace. -/
def collapseWsGo (prevWs : Bool) : List Char → List Char
  | [] => []
  | c :: t =>
    if c.isWhitespace then
      if prevWs then collapseWsGo true t else ' ' :: collapseWsGo true t
    else c :: collapseWsGo false t

/-- Whitespace-collapse on strings. -/
def collapseWsStr (s : String) : String :=
  String.mk (collapseWsGo false s.toList)

/-- Digits accumulated into a natural number (`int(match.group(1))`). -/
def natOfDigitsGo (acc : Nat) : List Char → Nat
  | [] => acc
  | c :: t => natOfDigitsGo (acc * 10 + (c.toNat - 48)) t

/-- Case-insensitive suffix test: does `cs` end with `suf` (given in
lowercase) up to ASCII case? -/
def endsWithCI (suf : String) (cs : List Char) : Bool :=
  suf.toList.reverse.isPrefixOf ((cs.map lowerChar).reverse)

/-- Suffix of `hay` that follows the first occurrence of `needle`, if
`needle` occurs (`hay.split(needle)[1]` semantics up to the next split). -/
def splitAfterFirst (needle : List Char) : List Char → Option (List Char)
  | [] => if needle.isEmpty then some [] else none
  | c :: t =>
    if needle.isPrefixOf (c :: t) then some ((c :: t).drop needle.length)
    else splitAfterFirst needle t

/-! ## Data model (src/scripts/common/models.py) -/

/-- Unified user model for all platforms. -/
structure User where
  id : String
  username : String
  display_name : String
  profile_url : String
  verified : Bool
deriving DecidableEq, Repr

/-- Unified comment model for all platforms. -/
structure Comment where
  index : Nat
  comment_id : String
  text : String
  likes : Nat
  reply_count : Nat
  is_reply : Bool
  created_at : Int
  user : User
  parent_comment_id : Option String
deriving DecidableEq, Repr

/-- Author information for posts. -/
structure PostAuthor where
  id : String
  name : String
  username : String
  profile_url : String
  profile_picture : String
  verified : Bool
deriving DecidableEq, Repr

/-- Media attachment model. -/
structure Attachment where
  type : String
  url : String
  id : String
  thumbnail_url : String
  caption : String
deriving DecidableEq, Repr

/-- Unified post/video model; `extra_metrics` is an association list
standing for the open Python dict of platform-specific counters. -/
structure Post where
  post_id : String
  text : String
  author : PostAuthor
  likes : Nat
  comments_total : Nat
  shares : Nat
  views : Nat
  created_at : Int
  attachments : List Attachment
  extra_metrics : List (String × Int)
deriving DecidableEq, Repr

/-- Default (all-empty) post author, as the dataclass defaults build it. -/
def defaultPostAuthor : PostAuthor :=
  { id := "", name := "", username := "", profile_url := ""
  , profile_picture := "", verified := false }

/-- Default post with a given id, as `Post(post_id=...)` builds it. -/
def defaultPost (pid : String) : Post :=
  { post_id := pid, text := "", author := defaultPostAuthor, likes := 0
  , comments_total := 0, shares := 0, views := 0, created_at := 0
  , attachments := [], extra_metrics := [] }

/-- Unified result structure for all scrapers.  The wall-clock duration is
kept as an integer second count; it carries no information for the claims. -/
structure ScrapeResult where
  platform : String
  source_url : String
  extracted_at : String
  post : Post
  comments : List Comment
  scrape_duration_seconds : Int
  error : Option String
deriving DecidableEq, Repr

/-! ## BaseScraper helpers (src/scripts/common/base_scraper.py) -/

/-- BaseScraper.create_result: fresh result with basic info; the ISO
timestamp `datetime.now().isoformat()` is passed in as `extractedAt`. -/
def create_result (platform url extractedAt : String) : ScrapeResult :=
  { platform := platform, source_url := url, extracted_at := extractedAt
  , post := defaultPost "", comments := [], scrape_duration_seconds := 0
  , error := none }

/-- BaseScraper.create_user: `id = user_id or username`,
`display_name = display_name or username`. -/
def create_user (user_id username display_name profile_url : String)
    (verified : Bool) : User :=
  { id := if user_id.isEmpty then username else user_id
  , username := username
  , display_name := if display_name.isEmpty then username else display_name
  , profile_url := profile_url
  , verified := verified }

/-- BaseScraper.create_comment: `created_at = created_at or int(time.time())`;
the current instant `int(time.time())` is passed in as `nowTs`. -/
def create_comment (nowTs : Int) (index : Nat) (comment_id text : String)
    (user : User) (likes reply_count : Nat) (is_reply : Bool)
    (created_at : Int) (parent_comment_id : Option String) : Comment :=
  { index := index, comment_id := comment_id, text := text, user := user
  , likes := likes, reply_count := reply_count, is_reply := is_reply
  , created_at := if created_at = 0 then nowTs else created_at
  , parent_comment_id := parent_comment_id }

/-! ## BaseScraper.parse_relative_time

The Python function lowercases and strips the input, then scans an ordered
pattern table with `re.search`.  Each numeric pattern has the shape
digits, optional whitespace, then one of a list of literal unit
alternatives; since no alternative begins with a digit or a space, the
leftmost `re.search` match is exactly the first position at which a
maximal digit run, then a maximal whitespace run, is followed by one of
the alternatives, which is what the scanners below compute. -/

/-- Attempt the pattern digits-whitespace-unit at the head of `cs`,
returning the numeric group on success. -/
def matchNumUnitAt (alts : List String) (cs : List Char) : Option Nat :=
  let digits := cs.takeWhile Char.isDigit
  if digits.isEmpty then none
  else
    let rest := (cs.dropWhile Char.isDigit).dropWhile Char.isWhitespace
    if alts.any (fun a => a.toList.isPrefixOf rest) then
      some (natOfDigitsGo 0 digits)
    else none

/-- Leftmost search for the digits-whitespace-unit pattern. -/
def findNumUnitGo (alts : List String) : List Char → Option Nat
  | [] => none
  | c :: t =>
    match matchNumUnitAt alts (c :: t) with
    | some n => some n
    | none => findNumUnitGo alts t

/-- `re.search` of a numeric time pattern over a string. -/
def findNumUnit (alts : List String) (s : String) : Option Nat :=
  findNumUnitGo alts s.toList

/-- `re.search` of a bare literal-alternation pattern over a string. -/
def findLiteralGo (alts : List String) : List Char → Bool
  | [] => alts.any (fun a => a.toList.isPrefixOf ([] : List Char))
  | c :: t => alts.any (fun a => a.toList.isPrefixOf (c :: t)) || findLiteralGo alts t

/-- Literal search on strings. -/
def findLiteral (alts : List String) (s : String) : Bool :=
  findLiteralGo alts s.toList

/-- The unit tags of the pattern table of parse_relative_time. -/
inductive TimeUnit where
  | seconds
  | minutes
  | hours
  | days
  | weeks
  | months
  | years
  | yesterday
  | today
  | justNow
deriving DecidableEq, Repr

/-- One row of the pattern table: the literal alternatives of the unit
group, whether the pattern requires a leading number, and the unit tag. -/
structure TimePattern where
  alts : List String
  numeric : Bool
  unit : TimeUnit
deriving DecidableEq, Repr

/-- The ordered pattern table of parse_relative_time. -/
def timePatterns : List TimePattern :=
  [ { alts := [ "s", "seg", "second" ], numeric := true, unit := TimeUnit.seconds }
  , { alts := [ "m", "min", "minute", "minuto" ], numeric := true, unit := TimeUnit.minutes }
  , { alts := [ "h", "hr", "hour", "hora" ], numeric := true, unit := TimeUnit.hours }
  , { alts := [ "d", "day", "día", "dia" ], numeric := true, unit := TimeUnit.days }
  , { alts := [ "w", "week", "sem", "semana" ], numeric := true, unit := TimeUnit.weeks }
  , { alts := [ "mo", "month", "mes" ], numeric := true, unit := TimeUnit.months }
  , { alts := [ "y", "year", "año" ], numeric := true, unit := TimeUnit.years }
  , { alts := [ "ayer", "yesterday" ], numeric := false, unit := TimeUnit.yesterday }
  , { alts := [ "hoy", "today" ], numeric := false, unit := TimeUnit.today }
  , { alts := [ "ahora", "now", "just" ], numeric := false, unit := TimeUnit.justNow }
  ]

/-- Search one pattern row; for non-numeric rows the group value is unused
and reported as 0. -/
def searchTimePattern (p : TimePattern) (s : String) : Option Nat :=
  if p.numeric then findNumUnit p.alts s
  else if findLiteral p.alts s then some 0 else none

/-- Seconds subtracted for a numeric match: the `timedelta` table
(weeks are 7 days, months 30 days, years 365 days). -/
def timeDelta (u : TimeUnit) (n : Nat) : Int :=
  match u with
  | TimeUnit.seconds => (n : Int)
  | TimeUnit.minutes => (n : Int) * 60
  | TimeUnit.hours => (n : Int) * 3600
  | TimeUnit.days => (n : Int) * 86400
  | TimeUnit.weeks => (n : Int) * 604800
  | TimeUnit.months => (n : Int) * 2592000
  | TimeUnit.years => (n : Int) * 31536000
  | _ => 0

/-- The pattern-table walk of parse_relative_time: the first matching row
decides the result. -/
def parseRelativeTimeGo (now : Int) (s : String) : List TimePattern → Int
  | [] => now
  | p :: rest =>
    match searchTimePattern p s with
    | none => parseRelativeTimeGo now s rest
    | some n =>
      match p.unit with
      | TimeUnit.yesterday => now - 86400
      | TimeUnit.today => now
      | TimeUnit.justNow => now
      | u => now - timeDelta u n

/-- BaseScraper.parse_relative_time with the current instant
`int(now.timestamp())` passed in as `now` (seconds since the epoch).
This is the value of the Python function on its non-raising paths; the
function can also raise OverflowError for large matched numbers, which
`parse_relative_time_exc` below models. -/
def parse_relative_time (now : Int) (time_str : String) : Int :=
  parseRelativeTimeGo now (trimStr (lowerStr time_str)) timePatterns

/-- Whether any of the recognized time patterns matches the (lowercased,
stripped) input — the condition under which parse_relative_time does not
fall through to the current timestamp. -/
def timeStrMatchesAny (time_str : String) : Bool :=
  timePatterns.any
    (fun p => (searchTimePattern p (trimStr (lowerStr time_str))).isSome)

/-! ### The OverflowError paths of parse_relative_time

Two Python operations in the numeric branches can raise.  The
`timedelta` constructor normalizes its argument into days and raises
OverflowError when the day count exceeds 999,999,999.  The subtraction
`now - delta` raises OverflowError when the resulting datetime falls
outside the representable range, whose lower end is `datetime.min`
(0001-01-01); with a non-negative delta only that lower end can be hit.
The naive local datetime is identified with its epoch-second count here;
the local UTC offset shifts the boundary by less than one day, far below
the margins of every input used. -/

/-- Days of the constructed timedelta per unit row, as the constructor
normalizes them (seconds, minutes and hours divide down into days; the
day-based rows scale directly). -/
def timeDeltaDaysNat (u : TimeUnit) (n : Nat) : Nat :=
  match u with
  | TimeUnit.seconds => n / 86400
  | TimeUnit.minutes => n * 60 / 86400
  | TimeUnit.hours => n * 3600 / 86400
  | TimeUnit.days => n
  | TimeUnit.weeks => n * 7
  | TimeUnit.months => n * 30
  | TimeUnit.years => n * 365
  | _ => 0

/-- The timedelta day-count cap of the Python constructor. -/
def timedeltaMaxDays : Nat := 999999999

/-- Epoch seconds of `datetime.min`, 0001-01-01 00:00:00. -/
def pythonMinTimestamp : Int := -62135596800

/-- Epoch seconds of `datetime.max`, 9999-12-31 23:59:59. -/
def pythonMaxTimestamp : Int := 253402300799

/-- The pattern-table walk with the OverflowError paths kept: a numeric
match first constructs the timedelta (raising past the day cap) and then
subtracts it (raising below `datetime.min`); the yesterday row constructs
`timedelta(days=1)` and can only overflow in the subtraction. -/
def parseRelativeTimeExcGo (now : Int) (s : String) :
    List TimePattern → Except String Int
  | [] => Except.ok now
  | p :: rest =>
    match searchTimePattern p s with
    | none => parseRelativeTimeExcGo now s rest
    | some n =>
      match p.unit with
      | TimeUnit.yesterday =>
        if now - 86400 < pythonMinTimestamp then Except.error "OverflowError"
        else Except.ok (now - 86400)
      | TimeUnit.today => Except.ok now
      | TimeUnit.justNow => Except.ok now
      | u =>
        if timeDeltaDaysNat u n > timedeltaMaxDays then Except.error "OverflowError"
        else if now - timeDelta u n < pythonMinTimestamp then
          Except.error "OverflowError"
        else Except.ok (now - timeDelta u n)

/-- BaseScraper.parse_relative_time with its raising behavior:
`Except.error` is an OverflowError propagating out of the call. -/
def parse_relative_time_exc (now : Int) (time_str : String) :
    Except String Int :=
  parseRelativeTimeExcGo now (trimStr (lowerStr time_str)) timePatterns


/-! ## BaseScraper.clean_text

`re.sub(r'\s+', ' ', text)` then removal of the single trailing
UI-affordance match of `\s*(Ver más|See more|Ver menos|See less)\s*$`
(case-insensitive), then `strip`. -/

/-- The trailing UI affordances stripped by clean_text, lowercased. -/
def cleanTextUiSuffixes : List String :=
  [ "ver más", "see more", "ver menos", "see less" ]

/-- Removes the trailing-affordance match: the leftmost match of
whitespace, one alternative, whitespace anchored at the end of the string
is the maximal whitespace run before the alternative plus the trailing
whitespace, so the removal drops trailing whitespace, the alternative, and
the whitespace before it. -/
def removeTrailingUiAffordance (s : String) : String :=
  let cs := s.toList
  let r := (cs.reverse.dropWhile Char.isWhitespace).reverse
  match cleanTextUiSuffixes.find? (fun suf => endsWithCI suf r) with
  | some suf =>
    let kept := r.take (r.length - suf.length)
    String.mk ((kept.reverse.dropWhile Char.isWhitespace).reverse)
  | none => s

/-- BaseScraper.clean_text. -/
def clean_text (text : String) : String :=
  if text.isEmpty then ""
  else trimStr (removeTrailingUiAffordance (collapseWsStr text))


/-! ## TikTok extraction pipeline (src/scripts/tiktok/scraper.py,
_extract_comments)

The DOM side of the extraction is the in-page script of lines 686-808: per
comment wrapper it resolves a username, a profile id and the raw comment
text through selectors, then validates, cleans, truncates and pushes a raw
record.  The selector layer is the external surface: a `TkDomItem` carries
the text content of the username element, the href-derived user id, the
text content of the comment-text element (the primary
`data-e2e=comment-level` path), the parsed like count, and the
reply-container test.  The validation, fixup, cleaning and truncation
logic below is translated from the script; the Python loop then assigns
indices. -/

/-- Raw selector results for one `DivCommentItemWrapper`. -/
structure TkDomItem where
  username : String
  userId : String
  text : String
  likes : Nat
  isReply : Bool
deriving DecidableEq, Repr

/-- One record pushed by the in-page script. -/
structure TkRawComment where
  username : String
  userId : String
  text : String
  likes : Nat
  isReply : Bool
deriving DecidableEq, Repr

/-- Characters removed from the edges of a TikTok comment text by the
`[\s·-]` class. -/
def isTkEdgeJunk (c : Char) : Bool :=
  c.isWhitespace || c = '·' || c = '-'

/-- Strips the leading `username` followed by whitespace, as the anchored
regex of the escaped username plus optional whitespace does. -/
def stripUsernamePrefix (username s : String) : String :=
  if username.toList.isPrefixOf s.toList then
    String.mk ((s.toList.drop username.length).dropWhile Char.isWhitespace)
  else s

/-- Strips leading and trailing runs of whitespace, middle dots and
hyphens (the global regex over both anchored character-class runs). -/
def stripTkEdges (s : String) : String :=
  String.mk (((s.toList.dropWhile isTkEdgeJunk).reverse.dropWhile isTkEdgeJunk).reverse)

/-- The `text.substring(0, 1000)` truncation of the in-page script. -/
def tkTruncate (s : String) : String :=
  String.mk (s.toList.take 1000)

/-- The per-wrapper logic of the in-page script: skip when neither a
username nor a user id resolved; default each from the other; trim, clean
and truncate the text to its first 1000 characters; skip when the cleaned
text is empty. -/
def tkCollectItem (it : TkDomItem) : Option TkRawComment :=
  let username0 := trimStr it.username
  let userId0 := it.userId
  if username0.isEmpty && userId0.isEmpty then none
  else
    let username := if username0.isEmpty then userId0 else username0
    let userId := if userId0.isEmpty then username else userId0
    let text0 := trimStr it.text
    let text1 := collapseWsStr text0
    let text2 := stripUsernamePrefix username text1
    let text3 := stripTkEdges text2
    let text := trimStr text3
    if text.isEmpty then none
    else some { username := username, userId := userId
              , text := tkTruncate text
              , likes := it.likes, isReply := it.isReply }

/-- One Comment from the Python loop body: `create_user` on the raw
identity and `create_comment` with a sequential id and the current
timestamp. -/
def tkMkComment (nowTs : Int) (index : Nat) (r : TkRawComment) : Comment :=
  let user := create_user r.userId r.username r.username "" false
  create_comment nowTs index (toString index) r.text user r.likes 0
    r.isReply nowTs none

/-- The Python `for idx, raw in enumerate(raw_comments)` loop with the
`max_comments` break; `maxComments = 0` stands for the falsy `None`/`0`
limit (no limit).  The per-item exception skip of the source cannot fire
here because the comment constructors are total. -/
def tiktokAssignAux (nowTs : Int) (maxComments : Nat) :
    Nat → List TkRawComment → List Comment
  | _, [] => []
  | idx, r :: rest =>
    if maxComments ≠ 0 ∧ maxComments ≤ idx then []
    else tkMkComment nowTs (idx + 1) r :: tiktokAssignAux nowTs maxComments (idx + 1) rest

/-- TikTokScraper._extract_comments over the selector results of the
expanded surface. -/
def tiktokExtractComments (nowTs : Int) (maxComments : Nat)
    (items : List TkDomItem) : List Comment :=
  tiktokAssignAux nowTs maxComments 0 (items.filterMap tkCollectItem)


/-! ## Facebook extraction pipeline (src/scripts/facebook/scraper.py,
_extract_comments)

An `FbArticle` carries the selector results for one `div[role=article]`
element: its aria-label, the UL/LI nesting depth, the inner text of the
first author-link candidate (empty when no selector matched), the resolved
author link and id, the inner texts of the `div[dir=auto]` sub-elements,
the parsed like count, and the resolved time element (machine-readable
attribute and inner text).  The classification, filtering, cleaning and
record construction below is translated from the source; the surrounding
see-more and reply-expansion clicks only mutate the page. -/

/-- Selector results for one article element. -/
structure FbArticle where
  ariaLabel : String
  nesting : Nat
  nameCand : String
  authorUrl : String
  authorId : String
  texts : List String
  likes : Nat
  timeAttr : Option Int
  timeText : Option String
deriving DecidableEq, Repr

/-- UI chrome strings dropped from candidate comment texts. -/
def fbUiTexts : List String :=
  [ "me gusta", "like", "responder", "reply", "ver más", "see more" ]

/-- The relative-time token filter regex anchored at both ends: digits,
optional whitespace, one unit of h, d, m, sem or min, an optional s, an
optional dot.  The anchoring makes the alternation order irrelevant. -/
def isTimeTokenLower (s : String) : Bool :=
  let cs := s.toList
  let ds := cs.takeWhile Char.isDigit
  if ds.isEmpty then false
  else
    let rest := (cs.dropWhile Char.isDigit).dropWhile Char.isWhitespace
    [ "h", "d", "m", "sem", "min" ].any (fun a =>
      a.toList.isPrefixOf rest &&
      (let r := rest.drop a.length
       r == ([] : List Char) || r == [ 's' ] || r == [ '.' ] || r == [ 's', '.' ]))

/-- The per-text filter of the candidate-text loop: strip, drop empties,
drop exact UI chrome, drop relative-time tokens, drop the author name. -/
def fbKeepText (authorName : String) (t0 : String) : Option String :=
  let t := trimStr t0
  if t.isEmpty then none
  else
    let tl := lowerStr t
    if fbUiTexts.contains tl then none
    else if isTimeTokenLower tl then none
    else if tl = lowerStr authorName then none
    else some t

/-- Python `max(all_texts, key=len)`: the first text of maximal length. -/
def firstLongest : List String → String
  | [] => ""
  | x :: xs =>
    let r := firstLongest xs
    if r.length > x.length then r else x

/-- The `comment_id=...` capture from the author link
(`re.search(r'comment_id=([^&]+)', author_url)`, empty when absent). -/
def extractCommentId (url : String) : String :=
  match splitAfterFirst ("comment_id=".toList) url.toList with
  | none => ""
  | some rest => String.mk (rest.takeWhile (fun c => c ≠ '&'))

/-- The fields of one accepted article before index assignment. -/
structure FbRec where
  text : String
  authorName : String
  authorId : String
  authorUrl : String
  likes : Nat
  is_reply : Bool
  created_at : Int
  commentId : String
deriving DecidableEq, Repr

/-- The per-article body of the extraction loop: skip post articles, test
reply nesting, resolve and validate the author name (length strictly
between 1 and 100 after strip), filter the candidate texts, take the first
longest, clean it, resolve the timestamp (machine attribute first, then
relative-time text, then the current instant; an OverflowError raised by
the relative-time parse is swallowed by the surrounding try of the time
extraction, leaving the default instant), and extract a comment id
from the author link.  Returns none exactly when the source hits a
`continue`. -/
def fbArticleRecord (now : Int) (a : FbArticle) : Option FbRec :=
  let aria := lowerStr a.ariaLabel
  if containsStr aria "post" || containsStr aria "publicación" then none
  else
    let isReply := decide (a.nesting > 2)
    let nameT := trimStr a.nameCand
    let authorName :=
      if ¬a.nameCand.isEmpty ∧ 1 < nameT.length ∧ nameT.length < 100 then nameT
      else ""
    if authorName.isEmpty then none
    else
      let allTexts := a.texts.filterMap (fbKeepText authorName)
      let commentText := firstLongest allTexts
      if commentText.isEmpty then none
      else
        let text := clean_text commentText
        let createdAt :=
          match a.timeAttr with
          | some u => u
          | none =>
            match a.timeText with
            | some tt =>
              if tt.isEmpty then now
              else
                match parse_relative_time_exc now tt with
                | Except.ok v => v
                | Except.error _ => now
            | none => now
        some { text := text, authorName := authorName, authorId := a.authorId
             , authorUrl := a.authorUrl, likes := a.likes, is_reply := isReply
             , created_at := createdAt, commentId := extractCommentId a.authorUrl }

/-- One Comment from an accepted article at a given 1-based index:
`create_user` on the author identity and `create_comment` with the
extracted or synthetic comment id. -/
def fbMkComment (nowTs : Int) (index : Nat) (r : FbRec) : Comment :=
  let user := create_user r.authorId r.authorId r.authorName r.authorUrl false
  create_comment nowTs index
    (if r.commentId.isEmpty then toString index else r.commentId)
    r.text user r.likes 0 r.is_reply r.created_at none

/-- The extraction loop: `comment_index` advances only on accepted
articles. -/
def fbExtractAux (now : Int) : Nat → List FbArticle → List Comment
  | _, [] => []
  | idx, a :: rest =>
    match fbArticleRecord now a with
    | none => fbExtractAux now idx rest
    | some r => fbMkComment now (idx + 1) r :: fbExtractAux now (idx + 1) rest

/-- FacebookScraper._extract_comments: empty when the page is no longer
open, else one pass over the articles. -/
def fbExtractComments (now : Int) (pageOpen : Bool)
    (articles : List FbArticle) : List Comment :=
  if pageOpen then fbExtractAux now 0 articles else []

/-- A concrete accepted article used by witnesses and counterexamples. -/
def fbArticleA : FbArticle :=
  { ariaLabel := "Comentario de Alice", nesting := 0, nameCand := "Alice"
  , authorUrl := "https://www.facebook.com/alice", authorId := "alice"
  , texts := [ "Alice", "Hola mundo", "2 h", "Responder" ], likes := 0
  , timeAttr := some 100, timeText := none }


/-! ## Expansion engines

Scroll and click effects act only on the page; the engines consume the
materialized item counts as an observation sequence indexed by the
iteration number.  A count query that throws is reported as the previous
count by the source, which is one more observable sequence value. -/

/-- The shared streak update of both engines: increment when the count is
unchanged, reset to zero on any change. -/
def streakUpdate (current last streak : Nat) : Nat :=
  if current = last then streak + 1 else 0

/-- Final state of the TikTok expansion loop. -/
structure TkExpandResult where
  last_count : Nat
  no_change : Nat
  ticks : Nat
deriving DecidableEq, Repr

/-- TikTokScraper._expand_comments: `for iteration in range(max_iterations)`
with the stall break of a streak of at least 10 past iteration 15.  The
fuel is the remaining range; `it` is the iteration counter. -/
def tiktokExpandLoop (obs : Nat → Nat) :
    Nat → Nat → Nat → Nat → TkExpandResult
  | 0, it, last, streak => { last_count := last, no_change := streak, ticks := it }
  | fuel + 1, it, last, streak =>
    let current := obs it
    let streak2 := streakUpdate current last streak
    if streak2 ≥ 10 ∧ it > 15 then
      { last_count := current, no_change := streak2, ticks := it + 1 }
    else tiktokExpandLoop obs fuel (it + 1) current streak2

/-- The TikTok expansion engine over an observation sequence. -/
def tiktokExpand (obs : Nat → Nat) (maxIterations : Nat) : TkExpandResult :=
  tiktokExpandLoop obs maxIterations 0 0 0

/-- One visible-or-not expand affordance of the TikTok view-more step. -/
structure TkMoreButton where
  visible : Bool
deriving DecidableEq, Repr

/-- The TikTok view-more click step of one tick: the in-page script clicks
every visible matching button (`moreButtons.forEach`), with no cap. -/
def tiktokTickClicks (buttons : List TkMoreButton) : Nat :=
  buttons.countP (fun b => b.visible)

/-- One candidate button of the Facebook expand-button step. -/
structure FbButton where
  visible : Bool
  text : String
deriving DecidableEq, Repr

/-- The expand-button text patterns of the Facebook engine. -/
def fbExpandPatterns : List String :=
  [ "Ver más comentarios", "View more comments", "Ver comentarios anteriores"
  , "View previous comments", "más comentarios", "more comments" ]

/-- Whether a button text (lowercased) contains one of the expand
patterns (lowercased). -/
def fbIsExpandButton (b : FbButton) : Bool :=
  fbExpandPatterns.any (fun p => containsStr (lowerStr b.text) (lowerStr p))

/-- The Facebook expand-button step of one tick: walk the buttons, skip
invisible ones, click matching ones, and break once the click counter
reaches 3. -/
def fbTickClicksGo (clicks : Nat) : List FbButton → Nat
  | [] => clicks
  | b :: rest =>
    if ¬b.visible then fbTickClicksGo clicks rest
    else if fbIsExpandButton b then
      let clicks2 := clicks + 1
      if 3 ≤ clicks2 then clicks2 else fbTickClicksGo clicks2 rest
    else fbTickClicksGo clicks rest

/-- Clicks performed by one Facebook tick on a given button list. -/
def fbTickClicks (buttons : List FbButton) : Nat :=
  fbTickClicksGo 0 buttons

/-- How the Facebook expansion loop ended. -/
inductive FbExitReason where
  | pageDead
  | stalled
  | targetReached
  | maxIter
deriving DecidableEq, Repr

/-- Final state of the Facebook expansion loop. -/
structure FbExpandResult where
  last_count : Nat
  no_change : Nat
  ticks : Nat
  exitReason : FbExitReason
deriving DecidableEq, Repr

/-- FacebookScraper._expand_comments as a loop over per-tick inputs: the
liveness poll every 10 ticks, the click step on the buttons visible that
tick, the count observation, the streak update, the stall exit (no clicks,
streak at least 8, aggressive re-measure unchanged, past iteration 30) and
the early target exit (`current >= target * 0.85`, written as
`20 * current ≥ 17 * target` over the integers). -/
def fbExpandLoop (alive : Nat → Bool) (buttonsAt : Nat → List FbButton)
    (obs : Nat → Nat) (remeasure : Nat → Nat) (target : Nat) :
    Nat → Nat → Nat → Nat → FbExpandResult
  | 0, it, last, streak =>
    { last_count := last, no_change := streak, ticks := it
    , exitReason := FbExitReason.maxIter }
  | fuel + 1, it, last, streak =>
    if it > 0 ∧ it % 10 = 0 ∧ alive it = false then
      { last_count := last, no_change := streak, ticks := it + 1
      , exitReason := FbExitReason.pageDead }
    else
      let clicks := fbTickClicks (buttonsAt it)
      let current := obs it
      let streak2 := streakUpdate current last streak
      if clicks = 0 ∧ streak2 ≥ 8 ∧ remeasure it = current ∧ it > 30 then
        { last_count := current, no_change := streak2, ticks := it + 1
        , exitReason := FbExitReason.stalled }
      else if 0 < target ∧ 17 * target ≤ 20 * current then
        { last_count := current, no_change := streak2, ticks := it + 1
        , exitReason := FbExitReason.targetReached }
      else fbExpandLoop alive buttonsAt obs remeasure target fuel (it + 1) current streak2

/-- The Facebook expansion engine over its per-tick inputs; `target` is
the page-chrome comment-count hint (0 when unknown). -/
def fbExpand (alive : Nat → Bool) (buttonsAt : Nat → List FbButton)
    (obs : Nat → Nat) (remeasure : Nat → Nat) (target maxIterations : Nat) :
    FbExpandResult :=
  fbExpandLoop alive buttonsAt obs remeasure target maxIterations 0 0 0


/-! ## TikTokScraper.scrape control flow (src/scripts/tiktok/scraper.py,
lines 125-271)

The exception structure of the method is what matters here: the CDP probe
is guarded, the fresh-browser launch and the page creation are not, the
navigation / session / extraction block is guarded by the try of line 191,
the early login-timeout return closes the launched browser inside that
try, and the final `browser.close()` of the non-CDP path runs after the
except with no guard of its own.  Each effectful stage is an input
outcome; `Except.error` marks an exception raised by that stage.  Helpers
that catch internally (_close_popups, _check_session_valid,
_extract_post_data, _open_comments_panel, _save_cookies) are total; the
guarded block summarizes navigation as one outcome, and
_extract_comments as one outcome because its _expand_comments waits can
raise before its own inner try.  The async_playwright context entry is
assumed to succeed. -/

deriving instance DecidableEq for Except

/-- TikTokScraper._extract_video_id: the URL part after `/video/` and
before `?`; none when `/video/` does not occur. -/
def extract_video_id (url : String) : Option String :=
  match splitAfterFirst ("/video/".toList) url.toList with
  | none => none
  | some rest => some (String.mk (rest.takeWhile (fun c => c ≠ '?')))

/-- The stage outcomes and session observations of one scrape call. -/
structure TkScrapeEnv where
  nowIso : String
  cdpOk : Bool
  hasPages : Bool
  launch : Except String Unit
  newPage : Except String Unit
  nav : Except String Unit
  sessionValid : Bool
  loginWait : Except String Bool
  post : Post
  comments : Except String (List Comment)
  closeEarly : Except String Unit
  closeFinal : Except String Unit
deriving Repr

/-- The invalid-URL message of the source. -/
def tkInvalidUrlMsg : String := "URL inválida. Debe contener '/video/ID'"

/-- The login-timeout message of the source. -/
def tkLoginTimeoutMsg : String := "Login/captcha timeout"

/-- The guarded try block of scrape: returns the mutated result and
whether the early `return result` of the login-timeout path fired (that
path skips the final close).  Any exception inside is caught by the except
of line 254, which stores its message in `result.error`. -/
def tiktokScrapeGuarded (env : TkScrapeEnv) (r0 : ScrapeResult) :
    ScrapeResult × Bool :=
  match env.nav with
  | Except.error m => ({ r0 with error := some m }, false)
  | Except.ok _ =>
    let proceed : ScrapeResult × Bool :=
      let r1 := { r0 with post := env.post }
      match env.comments with
      | Except.error m => ({ r1 with error := some m }, false)
      | Except.ok cs => ({ r1 with comments := cs }, false)
    if env.sessionValid then proceed
    else
      match env.loginWait with
      | Except.error m => ({ r0 with error := some m }, false)
      | Except.ok true => proceed
      | Except.ok false =>
        if env.cdpOk then ({ r0 with error := some tkLoginTimeoutMsg }, true)
        else
          match env.closeEarly with
          | Except.ok _ => ({ r0 with error := some tkLoginTimeoutMsg }, true)
          | Except.error m => ({ r0 with error := some m }, false)

/-- TikTokScraper.scrape; an `Except.error` result is an exception that
propagated past the call. -/
def tiktokScrape (url : String) (env : TkScrapeEnv) :
    Except String ScrapeResult :=
  let r0 := create_result "tiktok" url env.nowIso
  match extract_video_id url with
  | none => Except.ok { r0 with error := some tkInvalidUrlMsg }
  | some vid =>
    if vid.isEmpty then Except.ok { r0 with error := some tkInvalidUrlMsg }
    else
      match (if env.cdpOk then Except.ok () else env.launch) with
      | Except.error m => Except.error m
      | Except.ok _ =>
        match (if env.cdpOk && env.hasPages then Except.ok () else env.newPage) with
        | Except.error m => Except.error m
        | Except.ok _ =>
          match tiktokScrapeGuarded env r0 with
          | (r, true) => Except.ok r
          | (r, false) =>
            if env.cdpOk then Except.ok r
            else
              match env.closeFinal with
              | Except.error m => Except.error m
              | Except.ok _ => Except.ok r

/-- A fully healthy environment used by concrete instantiations. -/
def tkEnvOk : TkScrapeEnv :=
  { nowIso := "", cdpOk := true, hasPages := true, launch := Except.ok ()
  , newPage := Except.ok (), nav := Except.ok (), sessionValid := true
  , loginWait := Except.ok true, post := defaultPost "123"
  , comments := Except.ok [], closeEarly := Except.ok ()
  , closeFinal := Except.ok () }


/-! ## Concrete inputs for witnesses and counterexamples -/

/-- A concrete accepted TikTok DOM item. -/
def tkItemA : TkDomItem :=
  { username := "bob", userId := "bob", text := "hola", likes := 0, isReply := false }

/-- The raw record the in-page script pushes for `tkItemA`. -/
def tkRawA : TkRawComment :=
  { username := "bob", userId := "bob", text := "hola", likes := 0, isReply := false }

/-- The record the Facebook pipeline accepts for `fbArticleA`. -/
def fbRecA : FbRec :=
  { text := "Hola mundo", authorName := "Alice", authorId := "alice"
  , authorUrl := "https://www.facebook.com/alice", likes := 0
  , is_reply := false, created_at := 100, commentId := "" }

/-- A TikTok DOM item whose raw text has 1500 characters. -/
def tkLongItem : TkDomItem :=
  { username := "u", userId := "u", text := String.mk (List.replicate 1500 'a')
  , likes := 0, isReply := false }

/-- Four visible view-more affordances in one TikTok tick. -/
def tkFourMore : List TkMoreButton :=
  [ { visible := true }, { visible := true }, { visible := true }, { visible := true } ]

/-- An environment whose guarded comment-extraction stage raises. -/
def tkEnvCommentsFail : TkScrapeEnv :=
  { tkEnvOk with comments := Except.error "expand failed" }

/-- An environment without a CDP browser whose launch raises. -/
def tkEnvLaunchFail : TkScrapeEnv :=
  { tkEnvOk with
      cdpOk := false
      hasPages := false
      launch := Except.error "chromium launch failed" }

/-- A liveness sequence that never dies. -/
def fbAliveW : Nat → Bool := fun _ => true

/-- A button sequence with no buttons. -/
def fbNoButtonsW : Nat → List FbButton := fun _ => []

/-- Counts crossing 850 of a 1000 target at tick 2. -/
def fbObsCrossW : Nat → Nat := fun i => if i < 2 then 100 else 900

/-- A constant count observation. -/
def fbObsConstW : Nat → Nat := fun _ => 5

/-- A constant re-measure observation agreeing with `fbObsConstW`. -/
def fbRemConstW : Nat → Nat := fun _ => 5

/-- A zero re-measure observation. -/
def fbRemZeroW : Nat → Nat := fun _ => 0

/-! ## Helper lemmas -/

theorem fbMkComment_index (nowTs : Int) (index : Nat) (r : FbRec) :
    (fbMkComment nowTs index r).index = index := rfl

theorem tkMkComment_index (nowTs : Int) (index : Nat) (r : TkRawComment) :
    (tkMkComment nowTs index r).index = index := rfl

theorem tkMkComment_text (nowTs : Int) (index : Nat) (r : TkRawComment) :
    (tkMkComment nowTs index r).text = r.text := rfl

theorem fbExtractAux_map_index (now : Int) :
    ∀ (l : List FbArticle) (idx : Nat),
      (fbExtractAux now idx l).map (fun c => c.index) =
        List.range' (idx + 1) (fbExtractAux now idx l).length := by
  intro l
  induction l with
  | nil => intro idx; simp [fbExtractAux]
  | cons a rest ih =>
    intro idx
    cases h : fbArticleRecord now a with
    | none => simpa [fbExtractAux, h] using ih idx
    | some r =>
      simp [fbExtractAux, h, fbMkComment_index, List.range'_succ, ih (idx + 1)]

theorem tiktokAssignAux_map_index (nowTs : Int) (maxComments : Nat) :
    ∀ (l : List TkRawComment) (idx : Nat),
      (tiktokAssignAux nowTs maxComments idx l).map (fun c => c.index) =
        List.range' (idx + 1) (tiktokAssignAux nowTs maxComments idx l).length := by
  intro l
  induction l with
  | nil => intro idx; simp [tiktokAssignAux]
  | cons r rest ih =>
    intro idx
    by_cases h : maxComments ≠ 0 ∧ maxComments ≤ idx
    · simp [tiktokAssignAux, h]
    · simp [tiktokAssignAux, h, tkMkComment_index, List.range'_succ, ih (idx + 1)]

theorem tiktokExpandLoop_ticks_le (obs : Nat → Nat) :
    ∀ (fuel it last streak : Nat),
      (tiktokExpandLoop obs fuel it last streak).ticks ≤ it + fuel := by
  intro fuel
  induction fuel with
  | zero => intro it l s; simp [tiktokExpandLoop]
  | succ n ih =>
    intro it l s
    simp only [tiktokExpandLoop]
    split
    · show it + 1 ≤ it + (n + 1)
      omega
    · have h := ih (it + 1) (obs it) (streakUpdate (obs it) l s)
      omega

theorem fbExpandLoop_ticks_le (alive : Nat → Bool) (btns : Nat → List FbButton)
    (obs rem : Nat → Nat) (target : Nat) :
    ∀ (fuel it last streak : Nat),
      (fbExpandLoop alive btns obs rem target fuel it last streak).ticks ≤ it + fuel := by
  intro fuel
  induction fuel with
  | zero => intro it l s; simp [fbExpandLoop]
  | succ n ih =>
    intro it l s
    simp only [fbExpandLoop]
    split
    · show it + 1 ≤ it + (n + 1)
      omega
    · split
      · show it + 1 ≤ it + (n + 1)
        omega
      · split
        · show it + 1 ≤ it + (n + 1)
          omega
        · have h := ih (it + 1) (obs it) (streakUpdate (obs it) l s)
          omega

theorem fbExpandLoop_stalled_streak (alive : Nat → Bool) (btns : Nat → List FbButton)
    (obs rem : Nat → Nat) (target : Nat) :
    ∀ (fuel it last streak : Nat),
      (fbExpandLoop alive btns obs rem target fuel it last streak).exitReason =
        FbExitReason.stalled →
      8 ≤ (fbExpandLoop alive btns obs rem target fuel it last streak).no_change := by
  intro fuel
  induction fuel with
  | zero => intro it l s h; simp [fbExpandLoop] at h
  | succ n ih =>
    intro it l s
    simp only [fbExpandLoop]
    split
    · intro h; simp at h
    · split
      · rename_i hcond
        intro _
        exact hcond.2.1
      · split
        · intro h; simp at h
        · exact ih (it + 1) (obs it) (streakUpdate (obs it) l s)

theorem tiktokExpandLoop_early_stop_streak (obs : Nat → Nat) :
    ∀ (fuel it last streak : Nat),
      (tiktokExpandLoop obs fuel it last streak).ticks < it + fuel →
      10 ≤ (tiktokExpandLoop obs fuel it last streak).no_change := by
  intro fuel
  induction fuel with
  | zero => intro it l s h; simp [tiktokExpandLoop] at h
  | succ n ih =>
    intro it l s
    simp only [tiktokExpandLoop]
    split
    · rename_i hcond
      intro _
      exact hcond.1
    · intro h
      have := ih (it + 1) (obs it) (streakUpdate (obs it) l s)
      omega

theorem fbExpandLoop_target_sound (alive : Nat → Bool) (btns : Nat → List FbButton)
    (obs rem : Nat → Nat) (target : Nat) :
    ∀ (fuel it last streak : Nat),
      (fbExpandLoop alive btns obs rem target fuel it last streak).exitReason =
        FbExitReason.targetReached →
      0 < target ∧
        17 * target ≤
          20 * obs ((fbExpandLoop alive btns obs rem target fuel it last streak).ticks - 1) := by
  intro fuel
  induction fuel with
  | zero => intro it l s h; simp [fbExpandLoop] at h
  | succ n ih =>
    intro it l s
    simp only [fbExpandLoop]
    split
    · intro h; simp at h
    · split
      · intro h; simp at h
      · split
        · rename_i hcond
          intro _
          refine ⟨hcond.1, ?_⟩
          simpa using hcond.2
        · exact ih (it + 1) (obs it) (streakUpdate (obs it) l s)

theorem fbExpandLoop_stops_at_cross (alive : Nat → Bool) (btns : Nat → List FbButton)
    (obs rem : Nat → Nat) (target i : Nat) (ht : 0 < target)
    (hc : 17 * target ≤ 20 * obs i) :
    ∀ (fuel it last streak : Nat), it ≤ i →
      (fbExpandLoop alive btns obs rem target fuel it last streak).ticks ≤ i + 1 := by
  intro fuel
  induction fuel with
  | zero => intro it l s hit; simp [fbExpandLoop]; omega
  | succ n ih =>
    intro it l s hit
    simp only [fbExpandLoop]
    split
    · show it + 1 ≤ i + 1
      omega
    · split
      · show it + 1 ≤ i + 1
        omega
      · split
        · show it + 1 ≤ i + 1
          omega
        · next hne =>
          have hit2 : it ≠ i := by
            intro heq
            exact hne ⟨ht, by simpa [heq] using hc⟩
          exact ih (it + 1) (obs it) (streakUpdate (obs it) l s) (by omega)

theorem timeDelta_nonneg (u : TimeUnit) (n : Nat) : 0 ≤ timeDelta u n := by
  cases u <;> simp [timeDelta]

theorem parseRelativeTimeGo_le (now : Int) (s : String) :
    ∀ ps : List TimePattern, parseRelativeTimeGo now s ps ≤ now := by
  intro ps
  induction ps with
  | nil => simp [parseRelativeTimeGo]
  | cons p rest ih =>
    simp only [parseRelativeTimeGo]
    cases h : searchTimePattern p s with
    | none => exact ih
    | some n =>
      rcases p with ⟨alts, num, u⟩
      have hd := timeDelta_nonneg u n
      cases u <;> simp [timeDelta] at hd ⊢

theorem parseRelativeTimeGo_no_match (now : Int) (s : String) :
    ∀ ps : List TimePattern,
      (∀ p ∈ ps, searchTimePattern p s = none) →
      parseRelativeTimeGo now s ps = now := by
  intro ps
  induction ps with
  | nil => intro _; simp [parseRelativeTimeGo]
  | cons p rest ih =>
    intro h
    have hp : searchTimePattern p s = none := h p (by simp)
    simp only [parseRelativeTimeGo, hp]
    exact ih (fun q hq => h q (by simp [hq]))

theorem parseRelativeTimeExcGo_ok (now : Int) (s : String) :
    ∀ (ps : List TimePattern) (t : Int),
      parseRelativeTimeExcGo now s ps = Except.ok t →
      t = parseRelativeTimeGo now s ps := by
  intro ps
  induction ps with
  | nil =>
    intro t h
    simp only [parseRelativeTimeExcGo, Except.ok.injEq] at h
    simp [parseRelativeTimeGo, h]
  | cons p rest ih =>
    intro t h
    simp only [parseRelativeTimeExcGo] at h
    simp only [parseRelativeTimeGo]
    cases hs : searchTimePattern p s with
    | none =>
      rw [hs] at h
      exact ih t h
    | some n =>
      rw [hs] at h
      rcases p with ⟨alts, num, u⟩
      cases u <;>
        (try dsimp only at h ⊢) <;>
        (repeat' split at h) <;>
        first
          | (injection h with h2; exact h2.symm)
          | cases h

theorem tkTruncate_length_le (s : String) : (tkTruncate s).length ≤ 1000 := by
  have hlen : (tkTruncate s).length = (s.toList.take 1000).length := rfl
  rw [hlen]
  exact List.length_take_le 1000 _

theorem tkCollectItem_text_le (it : TkDomItem) (r : TkRawComment)
    (h : tkCollectItem it = some r) : r.text.length ≤ 1000 := by
  simp only [tkCollectItem] at h
  repeat' split at h
  all_goals first
    | (rw [Option.some.injEq] at h; cases h; exact tkTruncate_length_le _)
    | cases h

theorem tiktokAssignAux_text_all (nowTs : Int) (maxComments : Nat) :
    ∀ (l : List TkRawComment) (idx : Nat),
      (∀ r ∈ l, r.text.length ≤ 1000) →
      ((tiktokAssignAux nowTs maxComments idx l).all
        (fun c => decide (c.text.length ≤ 1000))) = true := by
  intro l
  induction l with
  | nil => intro idx _; simp [tiktokAssignAux]
  | cons r rest ih =>
    intro idx h
    by_cases hb : maxComments ≠ 0 ∧ maxComments ≤ idx
    · simp [tiktokAssignAux, hb]
    · have h1 : r.text.length ≤ 1000 := h r (by simp)
      have h2 := ih (idx + 1) (fun q hq => h q (by simp [hq]))
      simp [tiktokAssignAux, hb, tkMkComment_text, h1, h2]

/-! ## Claims -/

/-- C1 counterexample: the extraction pipelines of both platforms keep
duplicates.  Feeding the same raw item twice (identical text and identical
resolved author) yields two Comment records with the same normalized text
and the same user id, not one. -/
theorem extraction_dedup_cex :
    ((fbExtractComments 0 true [ fbArticleA, fbArticleA ]).map
        (fun c => (c.text, c.user.id))) =
      [ ("Hola mundo", "alice"), ("Hola mundo", "alice") ] ∧
    ¬(fbExtractComments 0 true [ fbArticleA, fbArticleA ]).length = 1 ∧
    ((tiktokExtractComments 0 0 [ tkItemA, tkItemA ]).map
        (fun c => (c.text, c.user.id))) =
      [ ("hola", "bob"), ("hola", "bob") ] ∧
    ¬(tiktokExtractComments 0 0 [ tkItemA, tkItemA ]).length = 1 := by
  decide

/-- C1 (amended): the Extraction Pipeline performs no duplicate
suppression before index assignment — every accepted raw item yields its
own Comment, so feeding the same raw item twice yields exactly two
Comments (duplicates are only counted for a diagnostic message). -/
theorem extraction_no_dedup_each_item_emitted :
    (∀ (now : Int) (a : FbArticle) (r : FbRec), fbArticleRecord now a = some r →
      (fbExtractComments now true [ a, a ]).length = 2) ∧
    (∀ (nowTs : Int) (it : TkDomItem) (raw : TkRawComment),
      tkCollectItem it = some raw →
      (tiktokExtractComments nowTs 0 [ it, it ]).length = 2) := by
  constructor
  · intro now a r h
    simp [fbExtractComments, fbExtractAux, h]
  · intro nowTs it raw h
    simp [tiktokExtractComments, h, tiktokAssignAux]

/-- C1 witness: both amended statements evaluated on concrete accepted
items. -/
theorem extraction_no_dedup_each_item_emitted_witness :
    (fbExtractComments 0 true [ fbArticleA, fbArticleA ]).length = 2 ∧
    (tiktokExtractComments 0 0 [ tkItemA, tkItemA ]).length = 2 :=
  ⟨extraction_no_dedup_each_item_emitted.1 0 fbArticleA fbRecA (by decide),
   extraction_no_dedup_each_item_emitted.2 0 tkItemA tkRawA (by decide)⟩

/-- C2: for any observation sequence, both Expansion Engine loops perform
at most max_iterations ticks, whether or not the count stabilizes. -/
theorem expansion_at_most_max_iterations :
    ∀ (obs : Nat → Nat) (maxIterations : Nat) (alive : Nat → Bool)
      (btns : Nat → List FbButton) (obs2 rem : Nat → Nat) (target : Nat),
      (tiktokExpand obs maxIterations).ticks ≤ maxIterations ∧
      (fbExpand alive btns obs2 rem target maxIterations).ticks ≤ maxIterations := by
  intro obs maxI alive btns obs2 rem target
  constructor
  · simpa using tiktokExpandLoop_ticks_le obs maxI 0 0 0
  · simpa using fbExpandLoop_ticks_le alive btns obs2 rem target maxI 0 0 0

/-- C4: in both extraction pipelines the emitted index values are exactly
1..len(comments) in order (pairwise unique, contiguous, ascending,
starting at 1), also when candidate items are skipped. -/
theorem comment_indices_contiguous_from_one :
    ∀ (now : Int) (pageOpen : Bool) (arts : List FbArticle)
      (nowTs : Int) (maxComments : Nat) (items : List TkDomItem),
      (fbExtractComments now pageOpen arts).map (fun c => c.index) =
        List.range' 1 (fbExtractComments now pageOpen arts).length ∧
      (tiktokExtractComments nowTs maxComments items).map (fun c => c.index) =
        List.range' 1 (tiktokExtractComments nowTs maxComments items).length := by
  intro now pageOpen arts nowTs maxC items
  constructor
  · cases pageOpen
    · simp [fbExtractComments]
    · simpa [fbExtractComments] using fbExtractAux_map_index now arts 0
  · simpa [tiktokExtractComments] using
      tiktokAssignAux_map_index nowTs maxC (items.filterMap tkCollectItem) 0

/-- C5 counterexample: on a decrease (count 38 after 40) the streak is
reset to 0, not incremented to 6 as the claim states. -/
theorem streak_decrease_resets_cex :
    streakUpdate 38 40 5 = 0 ∧ ¬streakUpdate 38 40 5 = 5 + 1 := by
  decide

/-- C5 (amended): the streak is reset to 0 on any change of the count
(increase or decrease) and incremented only when the count is unchanged;
stall-based termination still requires a streak of unchanged counts (at
least 8 on Facebook, at least 10 on TikTok), never a single decrease. -/
theorem streak_resets_on_any_change :
    (∀ current last streak : Nat, current ≠ last →
      streakUpdate current last streak = 0) ∧
    (∀ current streak : Nat, streakUpdate current current streak = streak + 1) ∧
    (∀ (alive : Nat → Bool) (btns : Nat → List FbButton) (obs rem : Nat → Nat)
       (target maxIterations : Nat),
       (fbExpand alive btns obs rem target maxIterations).exitReason =
         FbExitReason.stalled →
       8 ≤ (fbExpand alive btns obs rem target maxIterations).no_change) ∧
    (∀ (obs : Nat → Nat) (maxIterations : Nat),
       (tiktokExpand obs maxIterations).ticks < maxIterations →
       10 ≤ (tiktokExpand obs maxIterations).no_change) := by
  refine ⟨?_, ?_, ?_, ?_⟩
  · intro c l k h
    simp [streakUpdate, h]
  · intro c k
    simp [streakUpdate]
  · intro alive btns obs rem target maxI
    exact fbExpandLoop_stalled_streak alive btns obs rem target maxI 0 0 0
  · intro obs maxI h
    exact tiktokExpandLoop_early_stop_streak obs maxI 0 0 0 (by simpa using h)

/-- C5 witness: the amended statements at a concrete decrease and at
concrete stalled runs of both engines. -/
theorem streak_resets_on_any_change_witness :
    streakUpdate 38 40 5 = 0 ∧
    8 ≤ (fbExpand fbAliveW fbNoButtonsW fbObsConstW fbRemConstW 0 300).no_change ∧
    10 ≤ (tiktokExpand fbObsConstW 300).no_change :=
  ⟨streak_resets_on_any_change.1 38 40 5 (by decide),
   streak_resets_on_any_change.2.2.1 fbAliveW fbNoButtonsW fbObsConstW fbRemConstW 0 300
     (by decide),
   streak_resets_on_any_change.2.2.2 fbObsConstW 300 (by decide)⟩

/-- C6 counterexample: the TikTok expand-button step of one tick clicks
every visible view-more affordance; with four visible affordances it
performs 4 clicks, above the claimed cap of 3. -/
theorem tiktok_tick_clicks_uncapped_cex :
    tiktokTickClicks tkFourMore = 4 ∧ ¬tiktokTickClicks tkFourMore ≤ 3 := by
  decide

/-- C6 (amended): the Facebook expand-button step performs at most 3
clicks per tick; the TikTok step has no such cap and clicks every visible
matching affordance of the tick. -/
theorem facebook_tick_clicks_at_most_three :
    ∀ buttons : List FbButton, fbTickClicks buttons ≤ 3 := by
  have hgo : ∀ (l : List FbButton) (clicks : Nat), clicks ≤ 2 →
      fbTickClicksGo clicks l ≤ 3 := by
    intro l
    induction l with
    | nil =>
      intro c h
      simp only [fbTickClicksGo]
      omega
    | cons b rest ih =>
      intro c h
      simp only [fbTickClicksGo]
      split
      · exact ih c h
      · split
        · split
          · omega
          · rename_i hlt
            exact ih (c + 1) (by omega)
        · exact ih c h
  intro buttons
  exact hgo buttons 0 (by omega)

/-- C7: when a target hint is known (positive), the Facebook Expansion
Engine never exits for the target reason below the 0.85 threshold, and it
cannot run past the first tick whose observed count reaches the threshold
(the TikTok engine takes no target hint at all, so the premise never
arises there). -/
theorem expansion_early_stop_at_threshold :
    ∀ (alive : Nat → Bool) (btns : Nat → List FbButton) (obs rem : Nat → Nat)
      (target maxIterations : Nat),
      ((fbExpand alive btns obs rem target maxIterations).exitReason =
          FbExitReason.targetReached →
        0 < target ∧
          17 * target ≤
            20 * obs ((fbExpand alive btns obs rem target maxIterations).ticks - 1)) ∧
      (∀ i : Nat, 0 < target → 17 * target ≤ 20 * obs i →
        (fbExpand alive btns obs rem target maxIterations).ticks ≤ i + 1) := by
  intro alive btns obs rem target maxI
  constructor
  · exact fbExpandLoop_target_sound alive btns obs rem target maxI 0 0 0
  · intro i ht hc
    exact fbExpandLoop_stops_at_cross alive btns obs rem target i ht hc maxI 0 0 0
      (by omega)

/-- C7 witness: with target 1000 and counts 100, 100, 900, ... the engine
stops at tick 2 (the first count of at least 850). -/
theorem expansion_early_stop_at_threshold_witness :
    (0 < 1000 ∧ 17 * 1000 ≤ 20 * fbObsCrossW 2) ∧
    (fbExpand fbAliveW fbNoButtonsW fbObsCrossW fbRemZeroW 1000 300).ticks ≤ 2 + 1 :=
  ⟨⟨by decide, by decide⟩,
   (expansion_early_stop_at_threshold fbAliveW fbNoButtonsW fbObsCrossW fbRemZeroW
      1000 300).2 2 (by decide) (by decide)⟩

/-- C8: parsing the relative-time string of 2 hours yields the call
instant minus 7200 seconds, the yesterday literal yields the instant minus
86400 seconds, and any input matching none of the recognized time
patterns yields the instant itself. -/
theorem parse_relative_time_spec_examples :
    ∀ (now : Int) (s : String),
      parse_relative_time now "2 h" = now - 7200 ∧
      parse_relative_time now "ayer" = now - 86400 ∧
      (timeStrMatchesAny s = false → parse_relative_time now s = now) := by
  intro now s
  refine ⟨rfl, rfl, ?_⟩
  intro h
  simp only [timeStrMatchesAny] at h
  have h2 : ∀ p ∈ timePatterns,
      searchTimePattern p (trimStr (lowerStr s)) = none := by
    intro p hp
    exact Option.not_isSome_iff_eq_none.mp (by simpa using List.any_eq_false.mp h p hp)
  exact parseRelativeTimeGo_no_match now (trimStr (lowerStr s)) timePatterns h2

/-- C8 witness: the unparseable input evaluated at a concrete instant. -/
theorem parse_relative_time_spec_examples_witness :
    timeStrMatchesAny "zzz" = false ∧ parse_relative_time 1000000 "zzz" = 1000000 :=
  ⟨by decide, (parse_relative_time_spec_examples 1000000 "zzz").2.2 (by decide)⟩

/-- C9 counterexample: parse_relative_time does not return without
raising on every input.  At a present-day instant, the recognized input
of 3000 years subtracts past `datetime.min` and the subtraction raises
OverflowError; the recognized input of 99999999999 hours normalizes to
more than 999,999,999 days and already the timedelta constructor raises,
at any instant. -/
theorem parse_time_overflow_cex :
    parse_relative_time_exc 1760000000 "3000 y" =
      Except.error "OverflowError" ∧
    parse_relative_time_exc 1760000000 "99999999999 h" =
      Except.error "OverflowError" := by
  decide

/-- C9 (amended): parse_relative_time can raise OverflowError — when a
recognized numeric match builds a timedelta of more than 999,999,999 days,
or when the subtraction lands before `datetime.min` — but on every input
on which it returns, the returned timestamp is never later than the call
instant: all recognized patterns subtract a non-negative delta and the
fallback returns the instant itself. -/
theorem parse_relative_time_ok_never_future :
    ∀ (now : Int) (s : String) (t : Int),
      parse_relative_time_exc now s = Except.ok t → t ≤ now := by
  intro now s t h
  have hb := parseRelativeTimeExcGo_ok now (trimStr (lowerStr s)) timePatterns t h
  rw [hb]
  exact parseRelativeTimeGo_le now (trimStr (lowerStr s)) timePatterns

/-- C9 witness: a returning input evaluated at a concrete instant. -/
theorem parse_relative_time_ok_never_future_witness :
    parse_relative_time_exc 1000000 "2 h" = Except.ok 992800 ∧
    (992800 : Int) ≤ 1000000 :=
  ⟨by decide,
   parse_relative_time_ok_never_future 1000000 "2 h" 992800 (by decide)⟩

set_option maxRecDepth 40000 in
/-- C10: every Comment emitted by the TikTok extraction has a text of at
most 1000 characters, and a 1500-character raw text is truncated to its
first 1000 characters before the Comment is constructed. -/
theorem tiktok_comment_text_at_most_1000 :
    (∀ (nowTs : Int) (maxComments : Nat) (items : List TkDomItem),
      ((tiktokExtractComments nowTs maxComments items).all
        (fun c => decide (c.text.length ≤ 1000))) = true) ∧
    (tiktokExtractComments 0 0 [ tkLongItem ]).map (fun c => c.text.length) =
      [ 1000 ] := by
  constructor
  · intro nowTs maxC items
    apply tiktokAssignAux_text_all
    intro r hr
    rcases List.mem_filterMap.mp hr with ⟨a, _, ha⟩
    exact tkCollectItem_text_le a r ha
  · decide

/-- C3 counterexample: when no CDP browser is available, the fresh-browser
launch runs outside the guarded try block of scrape; a launch exception
therefore propagates past the top-level scrape call instead of being
returned inside a ScrapeResult. -/
theorem scrape_setup_failure_propagates_cex :
    tiktokScrape "https://www.tiktok.com/@u/video/123" tkEnvLaunchFail =
      Except.error "chromium launch failed" ∧
    ¬∃ r : ScrapeResult,
      tiktokScrape "https://www.tiktok.com/@u/video/123" tkEnvLaunchFail =
        Except.ok r := by
  have h : tiktokScrape "https://www.tiktok.com/@u/video/123" tkEnvLaunchFail =
      Except.error "chromium launch failed" := by decide
  refine ⟨h, ?_⟩
  rintro ⟨r, hr⟩
  rw [h] at hr
  cases hr

/-- C3 (amended): failures raised inside the guarded
navigation/session/expansion/extraction block never propagate — scrape
returns a ScrapeResult with error set and the already-collected post
retained; but browser setup (the fresh launch and page creation when no
CDP browser is attached) and the final browser close run unguarded, and
their exceptions propagate to the caller. -/
theorem scrape_guarded_block_no_throw :
    ∀ (url : String) (env : TkScrapeEnv),
      (env.cdpOk = false → env.launch = Except.ok ()) →
      (env.cdpOk = false → env.closeFinal = Except.ok ()) →
      ((env.cdpOk = true ∧ env.hasPages = true) ∨ env.newPage = Except.ok ()) →
      (∃ r : ScrapeResult, tiktokScrape url env = Except.ok r) ∧
      (∀ (m v : String), env.nav = Except.ok () → env.sessionValid = true →
        env.comments = Except.error m → extract_video_id url = some v →
        v.isEmpty = false →
        tiktokScrape url env =
          Except.ok { create_result "tiktok" url env.nowIso with
                        post := env.post, error := some m }) := by
  intro url env hL hC hP
  have hbrowser : (if env.cdpOk then Except.ok () else env.launch) = Except.ok () := by
    cases hcdp : env.cdpOk
    · simpa [hcdp] using hL hcdp
    · simp
  have hpage : (if env.cdpOk = true ∧ env.hasPages = true then Except.ok ()
      else env.newPage) = Except.ok () := by
    rcases hP with ⟨h1, h2⟩ | h2
    · simp [h1, h2]
    · by_cases hcb : env.cdpOk = true ∧ env.hasPages = true
      · simp [hcb]
      · simp [hcb, h2]
  have hclose : ∀ r : ScrapeResult,
      (if env.cdpOk then Except.ok r
       else
         match env.closeFinal with
         | Except.error m => Except.error m
         | Except.ok _ => Except.ok r) = Except.ok r := by
    intro r
    cases hcdp : env.cdpOk
    · simp [hC hcdp]
    · simp
  constructor
  · cases hvid : extract_video_id url with
    | none =>
      refine ⟨{ create_result "tiktok" url env.nowIso with
                  error := some tkInvalidUrlMsg }, ?_⟩
      simp [tiktokScrape, hvid]
    | some v =>
      cases hv : v.isEmpty with
      | true =>
        refine ⟨{ create_result "tiktok" url env.nowIso with
                    error := some tkInvalidUrlMsg }, ?_⟩
        simp [tiktokScrape, hvid, hv]
      | false =>
        rcases hg : tiktokScrapeGuarded env (create_result "tiktok" url env.nowIso)
          with ⟨r, b⟩
        cases b with
        | true => exact ⟨r, by simp [tiktokScrape, hvid, hv, hbrowser, hpage, hg]⟩
        | false =>
          refine ⟨r, ?_⟩
          simp [tiktokScrape, hvid, hv, hbrowser, hpage, hg, hclose]
  · intro m v hnav hsess hcm hvid hv
    have hg : tiktokScrapeGuarded env (create_result "tiktok" url env.nowIso) =
        ({ create_result "tiktok" url env.nowIso with
             post := env.post, error := some m }, false) := by
      simp [tiktokScrapeGuarded, hnav, hsess, hcm]
    simp [tiktokScrape, hvid, hv, hbrowser, hpage, hg, hclose]

/-- C3 witness: a scrape whose comment-extraction stage raises returns a
ScrapeResult carrying the error message and the extracted post. -/
theorem scrape_guarded_block_no_throw_witness :
    tiktokScrape "https://www.tiktok.com/@u/video/123" tkEnvCommentsFail =
      Except.ok { create_result "tiktok" "https://www.tiktok.com/@u/video/123"
                    tkEnvCommentsFail.nowIso with
                    post := tkEnvCommentsFail.post, error := some "expand failed" } :=
  (scrape_guarded_block_no_throw "https://www.tiktok.com/@u/video/123" tkEnvCommentsFail
      (by decide) (by decide) (by decide)).2
    "expand failed" "123" (by decide) (by decide) (by decide) (by decide) (by decide)
